import Mathlib

/-
Verification of the driver script `bin.src/makeLSSTobs.py` of the
repository lsst/sims_movingObjects.

The script is a thin command-line driver around an external astrodynamics
library.  We embed its own logic shallowly:

* Python strings are Lean `String`s; the few string primitives the script
  uses (`str.replace`, `str.lower`, `str.split`, `os.path.split`,
  `os.path.join`) are defined below on `List Char`, following the CPython
  semantics at the call sites of the script (all patterns used are
  non-empty and ASCII).
* `raise ValueError` is modelled as `Except.error` carrying the message.
* External collaborators (the opsim database, the orbit reader, the
  LinearObs/DirectObs objects) are modelled as oracles: the database is a
  column map plus a predicate saying which column names are available
  (a query raises ValueError exactly when it asks for an unavailable
  column), and calls into the external library are recorded as events in
  a trace.
-/

/-- Boolean test that `pat` is a leading segment of `l` (character lists). -/
def startsWithChars : List Char → List Char → Bool
  | [], _ => true
  | _ :: _, [] => false
  | p :: ps, c :: cs => p == c && startsWithChars ps cs

/-- CPython `str.split(sep)` for a one-character separator `sep`:
splits at every occurrence, keeping empty pieces, and returns `[[]]` on
the empty string. -/
def splitOnChar (sep : Char) : List Char → List (List Char)
  | [] => [[]]
  | c :: rest =>
    match splitOnChar sep rest with
    | [] => [[c]]
    | h :: t => if c == sep then [] :: h :: t else (c :: h) :: t

/-- CPython `sep.join(pieces)` for a one-character separator. -/
def joinWithChar (sep : Char) : List (List Char) → List Char
  | [] => []
  | [x] => x
  | x :: y :: t => x ++ sep :: joinWithChar sep (y :: t)

/-- CPython `str.replace(pat, rep)` on character lists: scan left to
right, replace every non-overlapping occurrence, never rescanning the
replacement.  (The script only calls it with non-empty patterns; for an
empty pattern this returns the input unchanged.)  Structural recursion
on a fuel argument so the kernel can evaluate it; every step consumes at
least one character, so fuel equal to the length of the list is always
enough. -/
def replCharsFuel (pat rep : List Char) : Nat → List Char → List Char
  | _, [] => []
  | 0, l => l
  | fuel + 1, c :: rest =>
    if !pat.isEmpty && startsWithChars pat (c :: rest) then
      rep ++ replCharsFuel pat rep fuel (rest.drop (pat.length - 1))
    else
      c :: replCharsFuel pat rep fuel rest

/-- CPython `str.replace(pat, rep)` on character lists. -/
def replChars (pat rep l : List Char) : List Char :=
  replCharsFuel pat rep l.length l

/-- CPython `s.replace(pat, rep)` on `String`. -/
def pyReplace (s pat rep : String) : String :=
  String.mk (replChars pat.data rep.data s.data)

/-- CPython `str.lower()`, restricted to ASCII case mapping (every string
the script compares against is ASCII). -/
def pyLower (s : String) : String :=
  String.mk (s.data.map Char.toLower)

/-- Python `os.path.split(p)[-1]` (POSIX): everything after the last
slash, the whole string when there is no slash. -/
def osBasename (p : String) : String :=
  String.mk ((splitOnChar '/' p.data).getLastD [])

/-- Python `'.'.join(name.split('.')[:-1])`: the dot-separated pieces of
`name` except the last one, rejoined with dots.  Empty when `name`
contains no dot. -/
def dropLastExt (name : String) : String :=
  String.mk (joinWithChar '.' ((splitOnChar '.' name.data).dropLast))

/-- Whether a string ends with a slash (used by `os.path.join`). -/
def endsWithSlash (a : String) : Bool :=
  match a.data.getLast? with
  | some c => c == '/'
  | none => false

/-- Python `os.path.join(a, b)` (POSIX, two arguments): `b` if `b` is
absolute, `a ++ b` if `a` is empty or ends with a slash, otherwise
`a ++ "/" ++ b`. -/
def osPathJoin (a b : String) : String :=
  if startsWithChars ['/'] b.data then b
  else if a == "" || endsWithSlash a then a ++ b
  else a ++ "/" ++ b

/-- The `argparse` namespace as it leaves `parser.parse_args()`: each
field is one `add_argument` of `setupArgs`, with its default. -/
structure RawArgs where
  opsimDb : Option String := none
  orbitFile : Option String := none
  outDir : String := "."
  obsFile : Option String := none
  sqlConstraint : String := ""
  obsMetadata : Option String := none
  footprint : String := "circle"
  rFov : Float := 1.75
  xTol : Float := 5
  yTol : Float := 3
  roughTol : Float := 20
  obsType : String := "direct"
  obsCode : String := "I11"
  tStep : Float := 1.0
  ephMode : String := "nbody"
  prelimEphMode : String := "2body"
  ephType : String := "basic"
  logFile : Option String := none

/-- The namespace returned by `setupArgs`: validation has passed, the
required arguments are present, and the derived fields `orbitbase`,
`opsimRun`, `obsFile` and `obsMetadata` have been filled in. -/
structure Args where
  opsimDb : String
  orbitFile : String
  outDir : String
  obsFile : String
  sqlConstraint : String
  obsMetadata : String
  footprint : String
  rFov : Float
  xTol : Float
  yTol : Float
  roughTol : Float
  obsType : String
  obsCode : String
  tStep : Float
  ephMode : String
  prelimEphMode : String
  ephType : String
  logFile : Option String
  orbitbase : String
  opsimRun : String

/-- `setupArgs` after `parser.parse_args()`: the validation checks and
derived-field computation of the script.  `raise ValueError` becomes
`Except.error`. -/
def setupArgs (raw : RawArgs) : Except String Args :=
  match raw.opsimDb with
  | none => .error "Must specify an opsim database output file."
  | some opsimDb =>
  match raw.orbitFile with
  | none => .error "Must specify an orbit file."
  | some orbitFile =>
  if !(raw.obsType == "linear" || raw.obsType == "direct") then
    .error "Must choose linear or direct observation generation method (obsType)."
  else
    let orbitbase := dropLastExt (osBasename orbitFile)
    let opsimRun := pyReplace (pyReplace (osBasename opsimDb) "_sqlite.db" "") ".db" ""
    let obsFile :=
      match raw.obsFile with
      | none => osPathJoin raw.outDir (opsimRun ++ "__" ++ orbitbase ++ "_obs.txt")
      | some f => osPathJoin raw.outDir f
    let md0 := "Opsim " ++ opsimRun
    let md1 := if 0 < raw.sqlConstraint.length then
                 md0 ++ " selected with sqlconstraint " ++ raw.sqlConstraint
               else md0
    let md2 := md1 ++ " + Orbitfile " ++ orbitbase
    let md3 := match raw.obsMetadata with
               | some m => md2 ++ "\n# " ++ m
               | none => md2
    .ok { opsimDb := opsimDb
          orbitFile := orbitFile
          outDir := raw.outDir
          obsFile := obsFile
          sqlConstraint := raw.sqlConstraint
          obsMetadata := md3
          footprint := raw.footprint
          rFov := raw.rFov
          xTol := raw.xTol
          yTol := raw.yTol
          roughTol := raw.roughTol
          obsType := raw.obsType
          obsCode := raw.obsCode
          tStep := raw.tStep
          ephMode := raw.ephMode
          prelimEphMode := raw.prelimEphMode
          ephType := raw.ephType
          logFile := raw.logFile
          orbitbase := orbitbase
          opsimRun := opsimRun }

/-- The column map returned by `getColMap(opsdb)` (external), restricted
to the keys the script reads.  All values are opsim column names, except
`raDecDeg` which is the boolean flag the script passes on as
`obsDegrees`.  `rotSkyPos?` is `none` when the key `rotSkyPos` is absent
from the discovered map. -/
structure ColMap where
  mjd : String
  night : String
  ra : String
  dec : String
  filter : String
  exptime : String
  seeingGeom : String
  fiveSigmaDepth : String
  seeingEff : String
  raDecDeg : Bool
  rotSkyPos? : Option String

/-- The fallback at the top of `readOpsim`: if `rotSkyPos` is not in the
column map, map it to the literal name `rotSkyPos`. -/
def fixRotSkyPos (cm : ColMap) : ColMap :=
  match cm.rotSkyPos? with
  | some _ => cm
  | none => { cm with rotSkyPos? := some "rotSkyPos" }

/-- The value of `colmap['rotSkyPos']`.  Everywhere the script reads this
key, `readOpsim` has already run `fixRotSkyPos`, so the key is present
and the `getD` default is never used in the flow of the script. -/
def ColMap.rot (cm : ColMap) : String :=
  cm.rotSkyPos?.getD "rotSkyPos"

/-- The opsim database as the script sees it: the discovered column map,
and the set of column names the database can serve.  `query_columns`
raises ValueError exactly when some requested column is unavailable. -/
structure OpsimDB where
  colmap : ColMap
  avail : String → Bool

/-- `opsdb.query_columns(...)` (external): succeeds when every requested
column is available, raises ValueError otherwise. -/
def queryColumns (db : OpsimDB) (cols : List String) : Except String Unit :=
  if cols.all db.avail then .ok () else .error "Unrecognized column request"

/-- The deduplicated minimum required column list of `readOpsim`
(`min_cols = list(set(min_cols))`): the eight base columns, plus
`colmap['rotSkyPos']` when the footprint is `camera`, plus `dbcols` when
given.  Python builds `list(set(...))` in an unspecified order; we model
the set by `List.dedup` and state only order-independent facts about
it. -/
def minCols (cm : ColMap) (footprint : String) (dbcols : Option (List String)) : List String :=
  let base := [cm.mjd, cm.night, cm.ra, cm.dec, cm.filter, cm.exptime,
               cm.seeingGeom, cm.fiveSigmaDepth]
  let base := if footprint == "camera" then base ++ [cm.rot] else base
  let base := match dbcols with
              | some d => base ++ d
              | none => base
  base.dedup

/-- The optional column list `more_cols` of `readOpsim`. -/
def moreCols (cm : ColMap) : List String :=
  [cm.rot, cm.seeingEff, "solarElong"]

/-- The optional columns surviving the trial queries: each column whose
one-column query raises ValueError is collected in `failed_cols` and
then removed (`list.remove`: first occurrence) from `more_cols`. -/
def survivingCols (db : OpsimDB) (cm : ColMap) : List String :=
  let more := moreCols cm
  let failed := more.filter (fun c => !(queryColumns db [c]).isOk)
  failed.foldl (fun acc c => acc.erase c) more

/-- `readOpsim`: discover the column map, apply the `rotSkyPos` fallback,
check the minimum columns with one query (a ValueError here propagates),
trial-query each optional column and silently drop the failures, then
fetch the deduplicated union of both lists.  Returns the queried column
list (standing for the fetched data, whose content is external) and the
column map. -/
def readOpsim (db : OpsimDB) (constraint : Option String) (footprint : String)
    (dbcols : Option (List String)) : Except String (List String × ColMap) :=
  let _ := constraint
  let colmap := fixRotSkyPos db.colmap
  let min_cols := minCols colmap footprint dbcols
  match queryColumns db min_cols with
  | .error e => .error e
  | .ok _ =>
    let cols := (min_cols ++ survivingCols db colmap).dedup
    .ok (cols, colmap)

/-- The orbit catalog as the script uses it: the `sed_filename` column of
`orbits.orbits` (the rest of the table is external). -/
structure Orbits where
  sed_filename : List String

/-- `np.unique(orbits.orbits['sed_filename'])`.  `np.unique` also sorts;
the order is irrelevant to every property below, so we model the set by
`List.dedup`. -/
def sednames (orbits : Orbits) : List String :=
  orbits.sed_filename.dedup

/-- The opsim data array as the script uses it: the `filter` column (the
rest is external). -/
structure SimData where
  filter : List String

/-- `np.unique(simdata['filter'])`, modelled like `sednames`. -/
def uniqueFilters (sd : SimData) : List String :=
  sd.filter.dedup

/-- Events of `readOrbits`: the log calls and the two calls into the
external library. -/
inductive OrbEvent where
  | logCritical (msg : String)
  | constructOrbits
  | callReadOrbits (path : String)
  | logInfo (msg : String)
deriving DecidableEq

/-- `readOrbits(orbitfile)` of the script, as the trace of calls it
makes.  `isFile` is the oracle for `os.path.isfile`.  The function has no
raise and no early return: a missing file only logs a critical message,
and the external `Orbits()` constructor and `orbits.readOrbits` call
happen unconditionally. -/
def readOrbits (isFile : String → Bool) (orbitfile : String) : List OrbEvent :=
  (if !(isFile orbitfile) then
     [OrbEvent.logCritical ("Could not find orbit file " ++ orbitfile)]
   else []) ++
  [OrbEvent.constructOrbits,
   OrbEvent.callReadOrbits orbitfile,
   OrbEvent.logInfo ("Read orbit information from " ++ orbitfile)]

/-- The keyword parameters of the `LinearObs(...)` constructor call in
`runObs`, field for field. -/
structure LinearObsParams where
  footprint : String
  rFov : Float
  xTol : Float
  yTol : Float
  ephMode : String
  obsCode : String
  ephFile : Option String
  ephType : String
  obsTimeCol : String
  obsTimeScale : String
  seeingCol : String
  visitExpTimeCol : String
  obsRA : String
  obsDec : String
  obsRotSkyPos : String
  obsDegrees : Bool
  outfileName : String
  tstep : Float
  obsMetadata : String

/-- The keyword parameters of the `DirectObs(...)` constructor call in
`runObs`, field for field. -/
structure DirectObsParams where
  footprint : String
  rFov : Float
  xTol : Float
  yTol : Float
  ephMode : String
  prelimEphMode : String
  obsCode : String
  ephFile : Option String
  ephType : String
  obsTimeCol : String
  obsTimeScale : String
  seeingCol : String
  visitExpTimeCol : String
  obsRA : String
  obsDec : String
  obsRotSkyPos : String
  obsDegrees : Bool
  outfileName : String
  tstep : Float
  roughTol : Float
  obsMetadata : String

/-- The `LinearObs` keyword arguments as `runObs` builds them from
`args` and `colmap`. -/
def mkLinearParams (args : Args) (cm : ColMap) : LinearObsParams :=
  { footprint := args.footprint
    rFov := args.rFov
    xTol := args.xTol
    yTol := args.yTol
    ephMode := args.ephMode
    obsCode := args.obsCode
    ephFile := none
    ephType := args.ephType
    obsTimeCol := cm.mjd
    obsTimeScale := "TAI"
    seeingCol := cm.seeingGeom
    visitExpTimeCol := cm.exptime
    obsRA := cm.ra
    obsDec := cm.dec
    obsRotSkyPos := cm.rot
    obsDegrees := cm.raDecDeg
    outfileName := args.obsFile
    tstep := args.tStep
    obsMetadata := args.obsMetadata }

/-- The `DirectObs` keyword arguments as `runObs` builds them from
`args` and `colmap`. -/
def mkDirectParams (args : Args) (cm : ColMap) : DirectObsParams :=
  { footprint := args.footprint
    rFov := args.rFov
    xTol := args.xTol
    yTol := args.yTol
    ephMode := args.ephMode
    prelimEphMode := args.prelimEphMode
    obsCode := args.obsCode
    ephFile := none
    ephType := args.ephType
    obsTimeCol := cm.mjd
    obsTimeScale := "TAI"
    seeingCol := cm.seeingGeom
    visitExpTimeCol := cm.exptime
    obsRA := cm.ra
    obsDec := cm.dec
    obsRotSkyPos := cm.rot
    obsDegrees := cm.raDecDeg
    outfileName := args.obsFile
    tstep := args.tStep
    roughTol := args.roughTol
    obsMetadata := args.obsMetadata }

/-- Events of `runObs`: construction of one of the two external
observation objects, the filter and color setup of `_setupColors`, and
the single `obs.run` call. -/
inductive ObsEvent where
  | constructLinear (p : LinearObsParams)
  | constructDirect (p : DirectObsParams)
  | readFilters (filterlist : List String)
  | calcColors (sedname : String)
  | runCall

/-- The dispatch at the top of `runObs`: `LinearObs` when
`args.obsType.lower()` is `linear`, `DirectObs` when it is `direct`,
ValueError otherwise. -/
def obsDispatch (args : Args) (cm : ColMap) : Except String ObsEvent :=
  if pyLower args.obsType == "linear" then
    .ok (ObsEvent.constructLinear (mkLinearParams args cm))
  else if pyLower args.obsType == "direct" then
    .ok (ObsEvent.constructDirect (mkDirectParams args cm))
  else
    .error "Must use \x27Linear\x27 or \x27Direct\x27 for the obsType."

/-- The trace of `_setupColors(obs, filterlist, orbits)`: one
`readFilters` call, then one `calcColors` call per unique SED name. -/
def setupColorsEvents (filterlist : List String) (orbits : Orbits) : List ObsEvent :=
  ObsEvent.readFilters filterlist :: (sednames orbits).map ObsEvent.calcColors

/-- `runObs(orbits, simdata, args, colmap)` as the trace of calls into
the external library: dispatch on `obsType` (a ValueError propagates),
then `_setupColors`, then exactly one `obs.run(orbits, simdata)`. -/
def runObs (orbits : Orbits) (simdata : SimData) (args : Args) (cm : ColMap) :
    Except String (List ObsEvent) :=
  match obsDispatch args cm with
  | .error e => .error e
  | .ok c => .ok ([c] ++ setupColorsEvents (uniqueFilters simdata) orbits ++ [ObsEvent.runCall])

/-- The three top-level work steps of the `__main__` block (argument
parsing and logging configuration precede them). -/
inductive MainStep where
  | readOrbitsStep
  | readOpsimStep
  | runObsStep
deriving DecidableEq

/-- The `__main__` block: parse and validate the arguments, then call
`readOrbits(args.orbitFile)`, then
`readOpsim(args.opsimDb, constraint=args.sqlConstraint,
footprint=args.footprint, dbcols=None)`, then
`runObs(orbits, opsimdata, args, colmap)`.  The result records, in
execution order, which of the three steps ran; any ValueError aborts the
run.  `isFile`, `db`, `orbits` and `simdata` are the external oracles
(the orbit catalog and pointing data stand for what the two read steps
returned). -/
def mainSteps (raw : RawArgs) (isFile : String → Bool) (db : OpsimDB)
    (orbits : Orbits) (simdata : SimData) : Except String (List MainStep) :=
  match setupArgs raw with
  | .error e => .error e
  | .ok args =>
    let _orbTrace := readOrbits isFile args.orbitFile
    match readOpsim db (some args.sqlConstraint) args.footprint none with
    | .error e => .error e
    | .ok (_cols, colmap) =>
      match runObs orbits simdata args colmap with
      | .error e => .error e
      | .ok _obsTrace =>
        .ok [MainStep.readOrbitsStep, MainStep.readOpsimStep, MainStep.runObsStep]

/-- Whether an `ObsEvent` is the `obs.run` call. -/
def isRunCall : ObsEvent → Bool
  | ObsEvent.runCall => true
  | _ => false

/-- Whether an `ObsEvent` constructs one of the two observation
objects. -/
def isConstructEvent : ObsEvent → Bool
  | ObsEvent.constructLinear _ => true
  | ObsEvent.constructDirect _ => true
  | _ => false

/-- Whether an `ObsEvent` is a `readFilters` call with the given filter
list. -/
def isReadFiltersEvent (fl : List String) : ObsEvent → Bool
  | ObsEvent.readFilters g => fl == g
  | _ => false

/-- Whether an `ObsEvent` is a `calcColors` call for the given SED
name. -/
def isCalcColorsEvent (s : String) : ObsEvent → Bool
  | ObsEvent.calcColors t => s == t
  | _ => false

/-- Every unique SED name of the catalog gets its `calcColors` call in
the trace. -/
def calcColorsCovered (orbits : Orbits) (tr : List ObsEvent) : Bool :=
  (sednames orbits).all (fun s => tr.any (isCalcColorsEvent s))

/-- The footprint keyword passed to the constructed observation object,
when the event is a construction. -/
def footprintOfEvent : ObsEvent → Option String
  | ObsEvent.constructLinear p => some p.footprint
  | ObsEvent.constructDirect p => some p.footprint
  | _ => none

/-- Shared fixture: a typical discovered column map with `rotSkyPos`
present. -/
def cm0 : ColMap :=
  { mjd := "observationStartMJD"
    night := "night"
    ra := "fieldRA"
    dec := "fieldDec"
    filter := "filter"
    exptime := "visitExposureTime"
    seeingGeom := "seeingFwhmGeom"
    fiveSigmaDepth := "fiveSigmaDepth"
    seeingEff := "seeingFwhmEff"
    raDecDeg := true
    rotSkyPos? := some "rotSkyPos" }

/-- Shared fixture: the same column map with the `rotSkyPos` key
absent. -/
def cmNoRot : ColMap := { cm0 with rotSkyPos? := none }

/-- Shared fixture: a database serving every column name. -/
def db0 : OpsimDB := { colmap := cm0, avail := fun _ => true }

/-- Shared fixture: a parsed argument set with just the two required
arguments supplied, everything else at its default. -/
def raw0 : RawArgs :=
  { opsimDb := some "kraken_2026.db", orbitFile := some "mba_orbits.des" }

/-- Shared fixture: the namespace `setupArgs` produces from `raw0`. -/
def args0 : Args :=
  { opsimDb := "kraken_2026.db"
    orbitFile := "mba_orbits.des"
    outDir := "."
    obsFile := "./kraken_2026__mba_orbits_obs.txt"
    sqlConstraint := ""
    obsMetadata := "Opsim kraken_2026 + Orbitfile mba_orbits"
    footprint := "circle"
    rFov := 1.75
    xTol := 5
    yTol := 3
    roughTol := 20
    obsType := "direct"
    obsCode := "I11"
    tStep := 1.0
    ephMode := "nbody"
    prelimEphMode := "2body"
    ephType := "basic"
    logFile := none
    orbitbase := "mba_orbits"
    opsimRun := "kraken_2026" }

/-- Shared fixture: a small orbit catalog and pointing data set. -/
def orb0 : Orbits := { sed_filename := ["C.dat"] }

/-- Shared fixture: pointing data with a single filter. -/
def sim0 : SimData := { filter := ["g"] }

/-- Folding `List.erase` over elements that differ from the head leaves
the head in place. -/
theorem foldl_erase_cons_of_ne {α : Type _} [BEq α] [LawfulBEq α]
    (a : α) (t fs : List α) (hfs : ∀ c ∈ fs, c ≠ a) :
    fs.foldl (fun acc c => acc.erase c) (a :: t) =
      a :: fs.foldl (fun acc c => acc.erase c) t := by
  induction fs generalizing t with
  | nil => rfl
  | cons c fs ih =>
    have hca : ¬(a == c) := by
      simpa using (hfs c (by simp)).symm
    have hac : (a :: t).erase c = a :: t.erase c :=
      List.erase_cons_tail hca
    simp only [List.foldl_cons, hac]
    exact ih (t.erase c) fun d hd => hfs d (by simp [hd])

/-- Collecting every element failing `p` and then `remove`-ing each of
them (first occurrence, as Python `list.remove` does) from the original
list is the same as filtering by `p`. -/
theorem foldl_erase_filter {α : Type _} [BEq α] [LawfulBEq α] (p : α → Bool) (l : List α) :
    (l.filter fun a => !(p a)).foldl (fun acc c => acc.erase c) l = l.filter p := by
  induction l with
  | nil => rfl
  | cons a t ih =>
    by_cases hp : p a = true
    · have h1 : (a :: t).filter (fun a => !(p a)) = t.filter (fun a => !(p a)) :=
        List.filter_cons_of_neg (by simp [hp])
      have h2 : ∀ c ∈ t.filter (fun a => !(p a)), c ≠ a := by
        intro c hc hca
        have := List.of_mem_filter hc
        rw [hca] at this
        simp [hp] at this
      rw [h1, foldl_erase_cons_of_ne a t _ h2, ih, List.filter_cons_of_pos hp]
    · have h1 : (a :: t).filter (fun a => !(p a)) = a :: t.filter (fun a => !(p a)) :=
        List.filter_cons_of_pos (by simp [hp])
      rw [h1]
      simp only [List.foldl_cons, List.erase_cons_head]
      rw [ih, List.filter_cons_of_neg (by simp [hp])]

/-- The optional columns surviving the trial queries are exactly the
available ones. -/
theorem survivingCols_eq (db : OpsimDB) (cm : ColMap) :
    survivingCols db cm = (moreCols cm).filter (fun c => db.avail c) := by
  unfold survivingCols
  have hpred : (fun c => !(queryColumns db [c]).isOk) = (fun c => !(db.avail c)) := by
    funext c
    by_cases h : db.avail c <;> simp [queryColumns, h, Except.isOk, Except.toBool]
  simp only [hpred]
  exact foldl_erase_filter (fun c => db.avail c) (moreCols cm)

/-- Inversion of a successful `setupArgs`: the required arguments were
present, the obsType check passed, the pass-through fields are
unchanged, and the derived fields have their computed values. -/
theorem setupArgs_inv (raw : RawArgs) (a : Args) (h : setupArgs raw = .ok a) :
    raw.opsimDb = some a.opsimDb ∧
    raw.orbitFile = some a.orbitFile ∧
    (raw.obsType = "linear" ∨ raw.obsType = "direct") ∧
    a.obsType = raw.obsType ∧
    a.footprint = raw.footprint ∧
    a.outDir = raw.outDir ∧
    a.sqlConstraint = raw.sqlConstraint ∧
    a.orbitbase = dropLastExt (osBasename a.orbitFile) ∧
    a.opsimRun = pyReplace (pyReplace (osBasename a.opsimDb) "_sqlite.db" "") ".db" "" ∧
    a.obsFile = (match raw.obsFile with
                 | none => osPathJoin raw.outDir (a.opsimRun ++ "__" ++ a.orbitbase ++ "_obs.txt")
                 | some f => osPathJoin raw.outDir f) ∧
    a.obsMetadata = (match raw.obsMetadata with
                     | some m => (if 0 < raw.sqlConstraint.length then
                                    "Opsim " ++ a.opsimRun ++ " selected with sqlconstraint " ++
                                      raw.sqlConstraint
                                  else "Opsim " ++ a.opsimRun) ++ " + Orbitfile " ++ a.orbitbase ++
                                 "\n# " ++ m
                     | none => (if 0 < raw.sqlConstraint.length then
                                  "Opsim " ++ a.opsimRun ++ " selected with sqlconstraint " ++
                                    raw.sqlConstraint
                                else "Opsim " ++ a.opsimRun) ++ " + Orbitfile " ++ a.orbitbase) := by
  unfold setupArgs at h
  rcases hdb : raw.opsimDb with _ | db
  · rw [hdb] at h
    simp at h
  rw [hdb] at h
  rcases hof : raw.orbitFile with _ | ofile
  · rw [hof] at h
    simp at h
  rw [hof] at h
  by_cases ht : (raw.obsType == "linear" || raw.obsType == "direct") = true
  · rw [ht] at h
    simp only [Bool.not_true, Bool.false_eq_true, if_false, Except.ok.injEq] at h
    subst h
    refine ⟨rfl, rfl, ?_, rfl, rfl, rfl, rfl, rfl, rfl, rfl, rfl⟩
    simpa using ht
  · rw [Bool.not_eq_true] at ht
    rw [ht] at h
    simp at h

/-- `setupArgs` succeeds exactly when both required arguments are
present and the obsType is one of the two accepted lower-case values. -/
theorem setupArgs_isOk_iff (raw : RawArgs) :
    (setupArgs raw).isOk = true ↔
      (raw.opsimDb ≠ none ∧ raw.orbitFile ≠ none ∧
       (raw.obsType = "linear" ∨ raw.obsType = "direct")) := by
  unfold setupArgs
  rcases raw.opsimDb with _ | db
  · simp [Except.isOk, Except.toBool]
  rcases raw.orbitFile with _ | ofile
  · simp [Except.isOk, Except.toBool]
  by_cases ht : (raw.obsType == "linear" || raw.obsType == "direct") = true
  · rw [ht]
    simp only [Bool.not_true, Bool.false_eq_true, if_false, Except.isOk, Except.toBool]
    simpa using ht
  · rw [Bool.not_eq_true] at ht
    rw [ht]
    simp only [Bool.not_false, if_true, Except.isOk, Except.toBool]
    simp only [Bool.or_eq_false_iff, beq_eq_false_iff_ne, ne_eq] at ht
    simp [ht.1, ht.2]

/-- Claim C1: `runObs` dispatches to exactly one of the two external
observation constructors: `LinearObs` when `args.obsType` lower-cases to
`linear`, `DirectObs` when it lower-cases to `direct`, and a ValueError
for any other value; it never constructs both. -/
theorem C1_dispatch (args : Args) (cm : ColMap) :
    (pyLower args.obsType = "linear" →
      obsDispatch args cm = .ok (ObsEvent.constructLinear (mkLinearParams args cm))) ∧
    (pyLower args.obsType = "direct" →
      obsDispatch args cm = .ok (ObsEvent.constructDirect (mkDirectParams args cm))) ∧
    (pyLower args.obsType ≠ "linear" → pyLower args.obsType ≠ "direct" →
      obsDispatch args cm = .error "Must use \x27Linear\x27 or \x27Direct\x27 for the obsType.") ∧
    (∀ p q, ¬(obsDispatch args cm = .ok (ObsEvent.constructLinear p) ∧
              obsDispatch args cm = .ok (ObsEvent.constructDirect q))) := by
  refine ⟨?_, ?_, ?_, ?_⟩
  · intro h
    simp [obsDispatch, h]
  · intro h
    simp [obsDispatch, h]
  · intro h1 h2
    simp [obsDispatch, h1, h2]
  · rintro p q ⟨hp, hq⟩
    rw [hp] at hq
    simp at hq

/-- Claim C1 witness: with the default `obsType` of `direct`, the
dispatch constructs the `DirectObs` parameters. -/
theorem C1_dispatch_witness :
    obsDispatch args0 cm0 = .ok (ObsEvent.constructDirect (mkDirectParams args0 cm0)) :=
  (C1_dispatch args0 cm0).2.1 (by decide)

/-- Fixture for C2: both required arguments present but an invalid
obsType. -/
def rawBadType : RawArgs :=
  { opsimDb := some "kraken_2026.db", orbitFile := some "mba_orbits.des", obsType := "foo" }

/-- Claim C2 counterexample: with both required arguments present and
`--obsType foo`, `setupArgs` still raises a ValueError, so missing
required arguments are not the only error the repository raises. -/
theorem C2_counterexample :
    setupArgs rawBadType =
      .error "Must choose linear or direct observation generation method (obsType)." ∧
    rawBadType.opsimDb ≠ none ∧ rawBadType.orbitFile ≠ none :=
  ⟨rfl, by decide, by decide⟩

/-- Claim C2 (amended): the errors the repository raises itself are
exactly the argument-validation ValueErrors of `setupArgs` (missing
opsimDb, missing orbitFile, or an obsType other than `linear` or
`direct`) and the corresponding obsType recheck in `runObs`; `readOpsim`
fails only by propagating the external query ValueError when a minimum
required column is unavailable. -/
theorem C2_amended_errors :
    (∀ raw : RawArgs, (setupArgs raw).isOk = false ↔
        (raw.opsimDb = none ∨ raw.orbitFile = none ∨
         (raw.obsType ≠ "linear" ∧ raw.obsType ≠ "direct"))) ∧
    (∀ (args : Args) (cm : ColMap), (obsDispatch args cm).isOk = false ↔
        (pyLower args.obsType ≠ "linear" ∧ pyLower args.obsType ≠ "direct")) ∧
    (∀ (db : OpsimDB) (c : Option String) (f : String) (d : Option (List String)),
        (readOpsim db c f d).isOk = false ↔
          (minCols (fixRotSkyPos db.colmap) f d).all db.avail = false) := by
  refine ⟨?_, ?_, ?_⟩
  · intro raw
    rw [show ((setupArgs raw).isOk = false) ↔ ¬((setupArgs raw).isOk = true) from by simp,
        setupArgs_isOk_iff]
    tauto
  · intro args cm
    by_cases hl : pyLower args.obsType = "linear"
    · simp [obsDispatch, hl, Except.isOk, Except.toBool]
    · by_cases hd : pyLower args.obsType = "direct"
      · simp [obsDispatch, hd, Except.isOk, Except.toBool]
      · simp [obsDispatch, hl, hd, Except.isOk, Except.toBool]
  · intro db c f d
    by_cases hall : (minCols (fixRotSkyPos db.colmap) f d).all db.avail = true
    · simp [readOpsim, queryColumns, hall, Except.isOk, Except.toBool]
    · rw [Bool.not_eq_true] at hall
      simp [readOpsim, queryColumns, hall, Except.isOk, Except.toBool]

/-- Claim C2 witness: the amended characterization applied to the
invalid-obsType input. -/
theorem C2_amended_errors_witness : (setupArgs rawBadType).isOk = false :=
  (C2_amended_errors.1 rawBadType).mpr (by decide)

/-- Fixture: an `os.path.isfile` oracle that always answers yes. -/
def isFile0 : String → Bool := fun _ => true

/-- Claim C3 counterexample: a successful execution of the driver whose
step order is read orbits, then read opsim data, then run observation
generation, not the claimed opsim-first order. -/
theorem C3_counterexample :
    mainSteps raw0 isFile0 db0 orb0 sim0 =
      .ok [MainStep.readOrbitsStep, MainStep.readOpsimStep, MainStep.runObsStep] ∧
    ([MainStep.readOrbitsStep, MainStep.readOpsimStep, MainStep.runObsStep] : List MainStep) ≠
      [MainStep.readOpsimStep, MainStep.readOrbitsStep, MainStep.runObsStep] :=
  ⟨rfl, by decide⟩

/-- Claim C3 (amended): on every successful execution the driver
performs exactly three sequential steps in this order: first read the
orbits, then read the pointing (opsim) data, then run the observation
generation. -/
theorem C3_amended (raw : RawArgs) (isFile : String → Bool) (db : OpsimDB)
    (orbits : Orbits) (simdata : SimData) (tr : List MainStep)
    (h : mainSteps raw isFile db orbits simdata = .ok tr) :
    tr = [MainStep.readOrbitsStep, MainStep.readOpsimStep, MainStep.runObsStep] := by
  unfold mainSteps at h
  split at h
  · exact absurd h (by simp)
  · dsimp only [] at h
    split at h
    · exact absurd h (by simp)
    · split at h
      · exact absurd h (by simp)
      · simp only [Except.ok.injEq] at h
        exact h.symm

/-- Claim C3 witness: the amended order theorem applied to a concrete
successful execution. -/
theorem C3_amended_witness :
    ([MainStep.readOrbitsStep, MainStep.readOpsimStep, MainStep.runObsStep] : List MainStep) =
      [MainStep.readOrbitsStep, MainStep.readOpsimStep, MainStep.runObsStep] :=
  C3_amended raw0 isFile0 db0 orb0 sim0 _ rfl

/-- Claim C4: `readOpsim` maps a missing `rotSkyPos` key to the literal
name, silently drops each optional column whose trial query raises
ValueError instead of failing the read, and queries the duplicate-free
union of the required columns and the surviving optional columns. -/
theorem C4_readOpsim :
    (∀ cm : ColMap, cm.rotSkyPos? = none → (fixRotSkyPos cm).rotSkyPos? = some "rotSkyPos") ∧
    (∀ (db : OpsimDB) (c : Option String) (f : String) (d : Option (List String)),
        (minCols (fixRotSkyPos db.colmap) f d).all db.avail = true →
        (readOpsim db c f d).isOk = true) ∧
    (∀ (db : OpsimDB) (c : Option String) (f : String) (d : Option (List String))
        (cols : List String) (cm : ColMap),
        readOpsim db c f d = .ok (cols, cm) →
        cols.Nodup ∧
        ∀ x, x ∈ cols ↔ (x ∈ minCols cm f d ∨ (x ∈ moreCols cm ∧ db.avail x = true))) := by
  refine ⟨?_, ?_, ?_⟩
  · intro cm h
    simp [fixRotSkyPos, h]
  · intro db c f d hall
    simp [readOpsim, queryColumns, hall, Except.isOk, Except.toBool]
  · intro db c f d cols cm h
    unfold readOpsim at h
    by_cases hall : (minCols (fixRotSkyPos db.colmap) f d).all db.avail = true
    · simp only [queryColumns, hall, if_true, Except.ok.injEq, Prod.mk.injEq] at h
      obtain ⟨hcols, hcm⟩ := h
      subst hcols
      subst hcm
      refine ⟨List.nodup_dedup _, ?_⟩
      intro x
      simp [List.mem_dedup, List.mem_append, survivingCols_eq, List.mem_filter]
    · rw [Bool.not_eq_true] at hall
      simp [queryColumns, hall] at h

/-- Claim C4 witness: the fallback, the successful read, and the
duplicate-freeness of the queried columns at a concrete database. -/
theorem C4_readOpsim_witness :
    (fixRotSkyPos cmNoRot).rotSkyPos? = some "rotSkyPos" ∧
    (readOpsim db0 none "camera" none).isOk = true ∧
    ((minCols (fixRotSkyPos cm0) "camera" none ++
        survivingCols db0 (fixRotSkyPos cm0)).dedup).Nodup :=
  ⟨C4_readOpsim.1 cmNoRot rfl,
   C4_readOpsim.2.1 db0 none "camera" none (by decide),
   (C4_readOpsim.2.2 db0 none "camera" none _ _ rfl).1⟩

/-- The orbit base name as the claim words it: the orbit file name
without its last extension, i.e. the name unchanged when it contains no
dot (as `os.path.splitext` would give).  Stated from the claim wording,
for comparison with the computation `dropLastExt` of the code. -/
def specOrbitbase (name : String) : String :=
  if name.data.contains '.' then dropLastExt name else name

/-- Fixture for C5: an orbit file name with no extension. -/
def rawNoDotOrb : RawArgs :=
  { opsimDb := some "kraken_2026.db", orbitFile := some "orbits" }

/-- Claim C5 counterexample: for the extensionless orbit file name
`orbits` the code derives an empty orbitbase, so the output file name is
`./kraken_2026___obs.txt`, not the `./kraken_2026__orbits_obs.txt` the
claim (name without its last extension) would give. -/
theorem C5_counterexample :
    Except.map Args.obsFile (setupArgs rawNoDotOrb) = Except.ok "./kraken_2026___obs.txt" ∧
    osPathJoin "." ("kraken_2026" ++ "__" ++ specOrbitbase "orbits" ++ "_obs.txt") =
      "./kraken_2026__orbits_obs.txt" ∧
    ("./kraken_2026___obs.txt" : String) ≠ "./kraken_2026__orbits_obs.txt" :=
  ⟨rfl, rfl, by decide⟩

/-- Claim C5 (amended): when `--obsFile` is absent, `args.obsFile` is
`outDir` joined with `<opsimRun>__<orbitbase>_obs.txt`, and otherwise
`outDir` joined with the given name, where `opsimRun` removes every
occurrence of `_sqlite.db` and then of `.db` from the opsim file name,
and `orbitbase` joins the dot-separated pieces of the orbit file name
except the last (empty when the name has no dot). -/
theorem C5_amended (raw : RawArgs) (a : Args) (h : setupArgs raw = .ok a) :
    a.orbitbase = dropLastExt (osBasename a.orbitFile) ∧
    a.opsimRun = pyReplace (pyReplace (osBasename a.opsimDb) "_sqlite.db" "") ".db" "" ∧
    a.obsFile = (match raw.obsFile with
                 | none => osPathJoin raw.outDir (a.opsimRun ++ "__" ++ a.orbitbase ++ "_obs.txt")
                 | some f => osPathJoin raw.outDir f) := by
  obtain ⟨-, -, -, -, -, -, -, h8, h9, h10, -⟩ := setupArgs_inv raw a h
  exact ⟨h8, h9, h10⟩

/-- Claim C5 witness: the amended derivation at a concrete argument
set. -/
theorem C5_amended_witness :
    args0.orbitbase = dropLastExt (osBasename args0.orbitFile) ∧
    args0.opsimRun = pyReplace (pyReplace (osBasename args0.opsimDb) "_sqlite.db" "") ".db" "" ∧
    args0.obsFile = (match raw0.obsFile with
                 | none => osPathJoin raw0.outDir (args0.opsimRun ++ "__" ++ args0.orbitbase ++ "_obs.txt")
                 | some f => osPathJoin raw0.outDir f) :=
  C5_amended raw0 args0 rfl

/-- A successful dispatch always yields a construction event. -/
theorem obsDispatch_ok_construct (args : Args) (cm : ColMap) (e : ObsEvent)
    (h : obsDispatch args cm = .ok e) : isConstructEvent e = true := by
  unfold obsDispatch at h
  split at h
  · simp only [Except.ok.injEq] at h
    subst h
    rfl
  · split at h
    · simp only [Except.ok.injEq] at h
      subst h
      rfl
    · exact absurd h (by simp)

/-- A construction event is not the run call. -/
theorem isConstructEvent_not_runCall (e : ObsEvent) (h : isConstructEvent e = true) :
    isRunCall e = false := by
  cases e <;> simp_all [isConstructEvent, isRunCall]

/-- The `_setupColors` trace contains no run call. -/
theorem countP_isRunCall_setupColors (fl : List String) (orbits : Orbits) :
    (setupColorsEvents fl orbits).countP isRunCall = 0 := by
  simp only [setupColorsEvents, List.countP_cons]
  simp [isRunCall, List.countP_eq_zero, List.mem_map]

/-- Claim C6: on every successful `runObs`, the external `obs.run`
method is invoked exactly once, it is the last call, the trace starts
with the construction of the configured observation object, and the
filter and color setup calls all precede it. -/
theorem C6_runOnce (orbits : Orbits) (simdata : SimData) (args : Args) (cm : ColMap)
    (tr : List ObsEvent) (h : runObs orbits simdata args cm = .ok tr) :
    tr.countP isRunCall = 1 ∧
    tr.getLast? = some ObsEvent.runCall ∧
    tr.head?.any isConstructEvent = true ∧
    tr.any (isReadFiltersEvent (uniqueFilters simdata)) = true ∧
    calcColorsCovered orbits tr = true := by
  unfold runObs at h
  split at h
  · exact absurd h (by simp)
  · rename_i c hc
    simp only [Except.ok.injEq] at h
    subst h
    have hcon : isConstructEvent c = true := obsDispatch_ok_construct args cm c hc
    refine ⟨?_, ?_, ?_, ?_, ?_⟩
    · have h1 := isConstructEvent_not_runCall c hcon
      simp [List.countP_append, List.countP_cons, countP_isRunCall_setupColors,
            List.singleton_append, h1, show isRunCall ObsEvent.runCall = true from rfl]
    · exact List.getLast?_concat _
    · simp [List.singleton_append, hcon]
    · simp [setupColorsEvents, List.any_append, List.any_cons, isReadFiltersEvent]
    · unfold calcColorsCovered
      rw [List.all_eq_true]
      intro s hs
      simp only [List.any_append, setupColorsEvents, List.any_cons, Bool.or_eq_true,
                 List.any_eq_true, List.mem_map]
      refine Or.inl (Or.inr (Or.inr ⟨ObsEvent.calcColors s, ⟨s, hs, rfl⟩, ?_⟩))
      simp [isCalcColorsEvent]

/-- Fixture for the C6 witness: the trace a concrete successful
`runObs` produces. -/
def tr0 : List ObsEvent :=
  ObsEvent.constructDirect (mkDirectParams args0 cm0) ::
    (setupColorsEvents (uniqueFilters sim0) orb0 ++ [ObsEvent.runCall])

/-- Claim C6 witness: the run-once property at a concrete execution. -/
theorem C6_runOnce_witness :
    tr0.countP isRunCall = 1 ∧
    tr0.getLast? = some ObsEvent.runCall ∧
    tr0.head?.any isConstructEvent = true ∧
    tr0.any (isReadFiltersEvent (uniqueFilters sim0)) = true ∧
    calcColorsCovered orb0 tr0 = true :=
  C6_runOnce orb0 sim0 args0 cm0 tr0 rfl

/-- Fixture for C7: a footprint outside the documented three options. -/
def rawBanana : RawArgs :=
  { opsimDb := some "kraken_2026.db", orbitFile := some "mba_orbits.des",
    footprint := "banana" }

/-- Claim C7 counterexample: the invocation with `--footprint banana`
passes validation and reaches observation generation, and the footprint
handed to the constructor is `banana`, which is none of the three named
shapes. -/
theorem C7_counterexample :
    Except.map Args.footprint (setupArgs rawBanana) = Except.ok "banana" ∧
    Except.map footprintOfEvent (Except.bind (setupArgs rawBanana) (fun a => obsDispatch a cm0)) =
      Except.ok (some "banana") ∧
    ("banana" ∉ (["circle", "rectangle", "camera"] : List String)) :=
  ⟨rfl, rfl, by decide⟩

/-- Claim C7 (amended): the script never validates the footprint: the
value passed to the observation constructor is exactly the
`--footprint` string as supplied, whose default is `circle`; values
outside the three documented options reach the constructor unchanged. -/
theorem C7_amended :
    (∀ (raw : RawArgs) (a : Args), setupArgs raw = .ok a → a.footprint = raw.footprint) ∧
    (∀ (args : Args) (cm : ColMap) (e : ObsEvent), obsDispatch args cm = .ok e →
        footprintOfEvent e = some args.footprint) ∧
    ({ opsimDb := some "kraken_2026.db",
       orbitFile := some "mba_orbits.des" } : RawArgs).footprint = "circle" := by
  refine ⟨?_, ?_, rfl⟩
  · intro raw a h
    exact (setupArgs_inv raw a h).2.2.2.2.1
  · intro args cm e h
    unfold obsDispatch at h
    split at h
    · simp only [Except.ok.injEq] at h
      subst h
      rfl
    · split at h
      · simp only [Except.ok.injEq] at h
        subst h
        rfl
      · exact absurd h (by simp)

/-- Claim C7 witness: the pass-through of the footprint at a concrete
argument set. -/
theorem C7_amended_witness :
    args0.footprint = raw0.footprint ∧
    footprintOfEvent (ObsEvent.constructDirect (mkDirectParams args0 cm0)) =
      some args0.footprint :=
  ⟨C7_amended.1 raw0 args0 rfl, C7_amended.2.1 args0 cm0 _ rfl⟩

/-- Fixture for C8: obsType spelled `Linear` with a capital letter. -/
def rawCapLinear : RawArgs :=
  { opsimDb := some "kraken_2026.db", orbitFile := some "mba_orbits.des",
    obsType := "Linear" }

/-- Claim C8: `setupArgs` accepts only the exact lower-case obsType
values `linear` and `direct` (so `Linear` and `Direct` are rejected),
while the `runObs` dispatch lower-cases first; hence for every argument
set that passed `setupArgs`, the ValueError branch of the dispatch is
unreachable. -/
theorem C8_caseSensitivity :
    (∀ raw : RawArgs, raw.obsType ≠ "linear" → raw.obsType ≠ "direct" →
        (setupArgs raw).isOk = false) ∧
    (∀ (raw : RawArgs) (a : Args) (cm : ColMap), setupArgs raw = .ok a →
        (obsDispatch a cm).isOk = true) := by
  constructor
  · intro raw h1 h2
    rw [show ((setupArgs raw).isOk = false) ↔ ¬((setupArgs raw).isOk = true) from by simp,
        setupArgs_isOk_iff]
    rintro ⟨-, -, h3 | h3⟩
    · exact h1 h3
    · exact h2 h3
  · intro raw a cm h
    obtain ⟨-, -, h3, h4, -⟩ := setupArgs_inv raw a h
    rcases h3 with h3 | h3
    · have hl : pyLower a.obsType = "linear" := by
        rw [h4, h3]
        rfl
      simp [obsDispatch, hl, Except.isOk, Except.toBool]
    · have hd : pyLower a.obsType = "direct" := by
        rw [h4, h3]
        rfl
      simp [obsDispatch, hd, Except.isOk, Except.toBool]

/-- Claim C8 witness: `Linear` is rejected by `setupArgs`, and a
namespace that passed `setupArgs` dispatches successfully. -/
theorem C8_caseSensitivity_witness :
    (setupArgs rawCapLinear).isOk = false ∧ (obsDispatch args0 cm0).isOk = true :=
  ⟨C8_caseSensitivity.1 rawCapLinear (by decide) (by decide),
   C8_caseSensitivity.2 raw0 args0 cm0 rfl⟩

/-- Claim C9: when the orbit file does not exist, `readOrbits` only logs
a critical message; it does not raise and does not return early, and it
still constructs the external `Orbits` object and calls its `readOrbits`
method on the non-existent path. -/
theorem C9_readOrbits (isFile : String → Bool) (path : String) (h : isFile path = false) :
    readOrbits isFile path =
      [OrbEvent.logCritical ("Could not find orbit file " ++ path),
       OrbEvent.constructOrbits,
       OrbEvent.callReadOrbits path,
       OrbEvent.logInfo ("Read orbit information from " ++ path)] := by
  simp [readOrbits, h]

/-- Fixture for the C9 witness: an `os.path.isfile` oracle that always
answers no. -/
def isFileNone : String → Bool := fun _ => false

/-- Claim C9 witness: the full trace at a concrete missing path. -/
theorem C9_readOrbits_witness :
    readOrbits isFileNone "missing.des" =
      [OrbEvent.logCritical ("Could not find orbit file " ++ "missing.des"),
       OrbEvent.constructOrbits,
       OrbEvent.callReadOrbits "missing.des",
       OrbEvent.logInfo ("Read orbit information from " ++ "missing.des")] :=
  C9_readOrbits isFileNone "missing.des" rfl

/-- A non-empty string has positive length. -/
theorem str_length_pos (s : String) (h : s ≠ "") : 0 < s.length := by
  obtain ⟨l⟩ := s
  cases l with
  | nil => exact absurd rfl h
  | cons c cs => simp [String.length]

/-- Claim C10: `setupArgs` always overwrites `args.obsMetadata` with the
derived provenance string: `Opsim ` plus the run name, then the
sqlconstraint clause exactly when the constraint is non-empty, then the
orbit-file base name, then the user metadata on a new comment line
exactly when it was provided. -/
theorem C10_metadata (raw : RawArgs) (a : Args) (h : setupArgs raw = .ok a) :
    a.obsMetadata =
      "Opsim " ++ a.opsimRun ++
      (if raw.sqlConstraint = "" then ""
       else " selected with sqlconstraint " ++ raw.sqlConstraint) ++
      " + Orbitfile " ++ a.orbitbase ++
      (match raw.obsMetadata with
       | some m => "\n# " ++ m
       | none => "") := by
  obtain ⟨-, -, -, -, -, -, -, -, -, -, h11⟩ := setupArgs_inv raw a h
  rw [h11]
  by_cases hc : raw.sqlConstraint = ""
  · have hlen : ¬(0 < raw.sqlConstraint.length) := by
      rw [hc]
      simp
    rcases raw.obsMetadata with _ | m <;>
      simp [hlen, hc, String.append_assoc]
  · have hlen : 0 < raw.sqlConstraint.length := str_length_pos _ hc
    rcases raw.obsMetadata with _ | m <;>
      simp [hlen, hc, String.append_assoc]

/-- Claim C10 witness: the provenance formula at a concrete argument
set. -/
theorem C10_metadata_witness :
    args0.obsMetadata =
      "Opsim " ++ args0.opsimRun ++
      (if raw0.sqlConstraint = ""
       then ""
       else " selected with sqlconstraint " ++ raw0.sqlConstraint) ++
      " + Orbitfile " ++ args0.orbitbase ++
      (match raw0.obsMetadata with
       | some m => "\n# " ++ m
       | none => "") :=
  C10_metadata raw0 args0 rfl

example : setupArgs raw0 = Except.ok args0 := rfl
example : pyReplace "kraken_2026.db" ".db" "" = "kraken_2026" := by decide
example : pyReplace "baseline_sqlite.db" "_sqlite.db" "" = "baseline" := by decide
example : pyLower "Linear" = "linear" := by decide
example : osBasename "/a/b/kraken.db" = "kraken.db" := by decide
example : dropLastExt "orbits.des" = "orbits" := by decide
example : dropLastExt "a.b.c" = "a.b" := by decide
example : dropLastExt "orbits" = "" := by decide
example : osPathJoin "." "a_obs.txt" = "./a_obs.txt" := by decide
example : osPathJoin "out/" "a.txt" = "out/a.txt" := by decide
